import Mathlib

/-!
Shallow embedding of the backend API server of this repository
(src/backend/api-server.js): the stdio JSON-RPC bridge's response
correlation (`sendMCPRequest`, `callTool`), the locator extractor
(`extractLocatorInfo`), the conversation loop of `processPromptWithMCP`
with its 20-iteration cap and 3-attempt retry policy, the
`SessionManager`, and the `/api/prompt` route handler.

External effects are modelled as explicit parameters: the wall clock is a
`Nat` (milliseconds), the Anthropic model service is a function from the
attempt index and the message history to a response or an error, and the
MCP tool servers are a function from a tool name and arguments to a
result or an error message (the outcome of `callTool`).
-/

/-- One content entry of an MCP tool result or tool-result message
(the JS objects of shape `{type, text}`). -/
structure RContent where
  type : String
  text : String
deriving DecidableEq

/-- The argument fields of a tool call that api-server.js inspects
(`selector`, `locator`, `text`, `role`, `name`, `url`); a field the call
does not carry is `none`. -/
structure ToolArgs where
  selector : Option String := none
  locator : Option String := none
  text : Option String := none
  role : Option String := none
  name : Option String := none
  url : Option String := none
deriving DecidableEq

/-- A tool call's result as returned by `callTool` (the JSON-RPC
`response.result`).  `content` is `none` when the result object has no
`content` field; `jsonRepr` stands for `JSON.stringify(result)`, used
only in that fallback branch. -/
structure ToolCallResult where
  content : Option (List RContent)
  jsonRepr : String := ""
deriving DecidableEq

/-- One block of a model response's `content` array: a text block or a
`tool_use` block with its call id, tool name and input arguments. -/
inductive ContentBlock where
  | text (s : String)
  | toolUse (id : String) (name : String) (input : ToolArgs)
deriving DecidableEq

/-- A `tool_use` block extracted from a model response. -/
structure ToolUse where
  id : String
  name : String
  input : ToolArgs
deriving DecidableEq

/-- A `tool_result` entry pushed into the combined user turn
(`{type: 'tool_result', tool_use_id, content, is_error}`); successful
entries carry no `is_error` field in JS, modelled as `false`. -/
structure ToolResultEntry where
  tool_use_id : String
  content : List RContent
  is_error : Bool
deriving DecidableEq

/-- The content of one conversation message: a plain user string, the
blocks of an assistant turn, or the tool results of a combined user turn. -/
inductive MessageContent where
  | text (s : String)
  | blocks (bs : List ContentBlock)
  | toolResults (rs : List ToolResultEntry)
deriving DecidableEq

/-- One conversation message (`{role, content}`). -/
structure Message where
  role : String
  content : MessageContent
deriving DecidableEq

/-- A model response: its `content` array of blocks. -/
structure ModelResponse where
  content : List ContentBlock
deriving DecidableEq

/-- An error thrown by the Anthropic client: its optional HTTP `status`
(529 signals upstream overload) and its `message`. -/
structure ApiError where
  status : Option Nat
  message : String
deriving DecidableEq

/-- A locator record built by `extractLocatorInfo`.  The JS `timestamp`
(an ISO string from `new Date()`) is the clock value `ts` passed in. -/
structure LocatorInfo where
  tool : String
  timestamp : Nat
  locator : Option String
  action : Option String
  element : Option String
  success : Bool
deriving DecidableEq

/-- The `contextUpdates` accumulator of one `processPromptWithMCP` run:
only the fields a tool call has set are present. -/
structure CtxUpdates where
  currentUrl : Option String := none
  browserState : Option String := none
  lastScreenshot : Option Nat := none
deriving DecidableEq

/-- Does the character list start with the given pattern? -/
def listStartsWith : List Char → List Char → Bool
  | [], _ => true
  | _ :: _, [] => false
  | p :: ps, c :: cs => (p == c) && listStartsWith ps cs

/-- Does the character list contain the pattern as a contiguous sublist? -/
def listContains (pat : List Char) : List Char → Bool
  | [] => pat.isEmpty
  | c :: cs => listStartsWith pat (c :: cs) || listContains pat cs

/-- JS `s.includes(pat)`. -/
def containsSub (s pat : String) : Bool :=
  listContains pat.data s.data

/-- Drop the first occurrence of the pattern from the character list
(the JS `String.prototype.replace(pat, '')`, which replaces only the
first occurrence). -/
def listReplaceFirst (pat : List Char) : List Char → List Char
  | [] => []
  | c :: cs =>
    if listStartsWith pat (c :: cs) then List.drop pat.length (c :: cs)
    else c :: listReplaceFirst pat cs

/-- JS `s.replace(pat, '')`: remove the first occurrence of `pat`. -/
def replaceFirst (s pat : String) : String :=
  String.mk (listReplaceFirst pat.data s.data)

/-- JS `s.trim()`: strip leading and trailing whitespace. -/
def trimString (s : String) : String :=
  String.mk (((s.data.dropWhile Char.isWhitespace).reverse.dropWhile Char.isWhitespace).reverse)

/-- JS truthiness of an optional string field: `undefined` and the empty
string are falsy. -/
def truthy (o : Option String) : Option String :=
  match o with
  | some s => if s = "" then none else some s
  | none => none

/-- Is the character matched by the regex class `[:\s]`? -/
def isSepChar (c : Char) : Bool := c == ':' || c.isWhitespace

/-- The remainder of the list after the first case-insensitive occurrence
of the (lower-case) pattern. -/
def findAfterCI (pat : List Char) : List Char → Option (List Char)
  | [] => none
  | c :: cs =>
    if listStartsWith pat ((c :: cs).map Char.toLower) then
      some (List.drop pat.length (c :: cs))
    else findAfterCI pat cs

/-- The capture of the regex `/Found element[:\s]+(.+?)(?:\n|$)/i` on the
returned text, trimmed: the text after the first occurrence of
"found element" and at least one `[:\s]` separator, up to the next
newline, when non-empty. -/
def elementOf (textContent : String) : Option String :=
  match findAfterCI "found element".data textContent.data with
  | none => none
  | some rest =>
    let afterSep := rest.dropWhile isSepChar
    if afterSep.length = rest.length then none
    else
      let captured := afterSep.takeWhile (fun c => c != '\n')
      if captured.isEmpty then none else some (trimString (String.mk captured))

/-- `APIServer.extractLocatorInfo(toolName, toolArgs, toolResult)`:
derives the locator record of one tool invocation.  `toolResult` is
`none` when the call failed (the JS call site passes `null`); `ts` is
the wall clock. -/
def extractLocatorInfo (toolName : String) (toolArgs : ToolArgs)
    (toolResult : Option ToolCallResult) (ts : Nat) : LocatorInfo :=
  if containsSub toolName "playwright_" then
    let action := replaceFirst toolName "playwright_"
    let locator : Option String :=
      match truthy toolArgs.selector with
      | some s => some s
      | none =>
        match truthy toolArgs.locator with
        | some l => some l
        | none =>
          match truthy toolArgs.text with
          | some t => some ("text=\"" ++ t ++ "\"")
          | none =>
            match truthy toolArgs.role, truthy toolArgs.name with
            | some r, some n => some ("role=" ++ r ++ "[name=\"" ++ n ++ "\"]")
            | _, _ => none
    match toolResult with
    | some res =>
      match res.content with
      | some cs =>
        let textContent := ((cs.find? (fun c => c.type == "text")).map RContent.text).getD ""
        let success := !(containsSub textContent "error" || containsSub textContent "failed"
          || containsSub textContent "not found")
        ⟨toolName, ts, locator, some action, elementOf textContent, success⟩
      | none => ⟨toolName, ts, locator, some action, none, true⟩
    | none => ⟨toolName, ts, locator, some action, none, true⟩
  else
    ⟨toolName, ts, none, none, none, true⟩

/-- One framed JSON-RPC record arriving on a bridge's stdout, already
split out of the byte stream by the line framing of `sendMCPRequest`:
its correlation `id` and its payload text. -/
structure MCPRecord where
  id : Nat
  body : String
deriving DecidableEq

/-- An outgoing JSON-RPC request of `sendMCPRequest`. -/
structure MCPRequest where
  id : Nat
  method : String
  paramsName : String
  paramsArgs : ToolArgs
deriving DecidableEq

/-- The `tools/call` request built by `APIServer.callTool`: its
correlation id is `Date.now()`, the wall-clock millisecond time of
issuance. -/
def mkCallToolRequest (now : Nat) (originalName : String) (args : ToolArgs) : MCPRequest :=
  ⟨now, "tools/call", originalName, args⟩

/-- The set of pending correlation ids of one bridge after
`sendMCPRequest` registers a new request's handler. -/
def sendPending (pending : List Nat) (req : MCPRequest) : List Nat :=
  req.id :: pending

/-- The response record a pending request's data handler resolves with:
the first record of the incoming stream whose `id` equals the request's
id (`if (response.id === request.id) resolve(response)`), scanning
records in arrival order. -/
def resolveRequest (reqId : Nat) : List MCPRecord → Option MCPRecord
  | [] => none
  | r :: rest => if r.id = reqId then some r else resolveRequest reqId rest

/-- The external environment of one `processPromptWithMCP` run: the
Anthropic client (`model`, taking the 1-based attempt index and the
message history), the outcome of `callTool` against the MCP servers
(`toolExec`, an error string when the call threw), and the wall clock. -/
structure Env where
  model : Nat → List Message → Except ApiError ModelResponse
  toolExec : String → ToolArgs → Except String ToolCallResult
  now : Nat

/-- The `toolContent` chosen for a successful call's tool-result entry:
`result.content` when present, otherwise a single text block holding
`JSON.stringify(result)`. -/
def toolContentOf (r : ToolCallResult) : List RContent :=
  match r.content with
  | some cs => cs
  | none => [⟨"text", r.jsonRepr⟩]

/-- The `tool_use` blocks of a model response's content, in order. -/
def toolUsesOf (bs : List ContentBlock) : List ToolUse :=
  bs.filterMap fun b =>
    match b with
    | .toolUse i n a => some ⟨i, n, a⟩
    | _ => none

/-- The joined text of a model response
(`content.filter(type === 'text').map(text).join('\n')`). -/
def responseTextOf (bs : List ContentBlock) : String :=
  String.intercalate "\n" (bs.filterMap fun b =>
    match b with
    | .text s => some s
    | _ => none)

/-- The output of executing one step's tool calls: the tool-result
entries in call order, the locator records appended, and the updated
context accumulator. -/
structure ExecOut where
  results : List ToolResultEntry
  locators : List LocatorInfo
  context : CtxUpdates
deriving DecidableEq

/-- The `for (const toolUse of toolUses)` body of `processPromptWithMCP`:
each call is dispatched through `callTool`; a throw is caught per call
and wrapped as an `is_error` tool-result entry, so one failure aborts
neither the remaining calls nor the loop.  A locator record is pushed
only when its `locator` field is non-null; `currentUrl`/`browserState`
update on a successful navigate with a truthy `url`, `lastScreenshot` on
a successful screenshot. -/
def execTools (env : Env) : List ToolUse → CtxUpdates → ExecOut
  | [], ctx => ⟨[], [], ctx⟩
  | tu :: rest, ctx =>
    match env.toolExec tu.name tu.input with
    | .ok result =>
      let li := extractLocatorInfo tu.name tu.input (some result) env.now
      let locs := if li.locator.isSome then [li] else []
      let ctx1 :=
        if tu.name = "playwright_playwright_navigate" ∧ (truthy tu.input.url).isSome then
          { ctx with currentUrl := truthy tu.input.url, browserState := some "open" }
        else ctx
      let ctx2 :=
        if tu.name = "playwright_playwright_screenshot" then
          { ctx1 with lastScreenshot := some env.now }
        else ctx1
      let entry : ToolResultEntry := ⟨tu.id, toolContentOf result, false⟩
      let out := execTools env rest ctx2
      ⟨entry :: out.results, locs ++ out.locators, out.context⟩
    | .error msg =>
      let li0 := extractLocatorInfo tu.name tu.input none env.now
      let li : LocatorInfo := { li0 with success := false }
      let locs := if li.locator.isSome then [li] else []
      let entry : ToolResultEntry :=
        ⟨tu.id, [⟨"text", "Error: " ++ msg ++ ". Please try alternative approaches or selectors."⟩], true⟩
      let out := execTools env rest ctx
      ⟨entry :: out.results, locs ++ out.locators, out.context⟩

/-- The mutable accumulators of the conversation while-loop. -/
structure LoopState where
  messages : List Message
  iteration : Nat
  finalResult : String
  locators : List LocatorInfo
  context : CtxUpdates
  complete : Bool
deriving DecidableEq

/-- `maxIterations` of `processPromptWithMCP`. -/
def maxIterations : Nat := 20

/-- One iteration of the conversation while-loop: call the model, fold
its text into `finalResult`, append the assistant turn, then either mark
the conversation complete (no tool uses) or execute all tool calls and
append the one combined user turn of tool results. -/
def agentIter (model : List Message → Except ApiError ModelResponse) (env : Env)
    (st : LoopState) : Except ApiError LoopState :=
  match model st.messages with
  | .error e => .error e
  | .ok response =>
    let iteration := st.iteration + 1
    let responseText := responseTextOf response.content
    let finalResult :=
      if responseText = "" then st.finalResult
      else if st.finalResult = "" then responseText
      else st.finalResult ++ "\n\n" ++ responseText
    let messages1 := st.messages ++ [⟨"assistant", .blocks response.content⟩]
    let toolUses := toolUsesOf response.content
    if toolUses.isEmpty then
      .ok { st with iteration := iteration, finalResult := finalResult,
                    messages := messages1, complete := true }
    else
      let out := execTools env toolUses st.context
      .ok { st with iteration := iteration, finalResult := finalResult,
                    messages := messages1 ++ [⟨"user", .toolResults out.results⟩],
                    locators := st.locators ++ out.locators,
                    context := out.context }

/-- The `while (!conversationComplete && iteration < maxIterations)`
loop, written with fuel; the initial fuel `maxIterations` together with
`iteration = 0` makes fuel exhaustion coincide exactly with the
iteration cap. -/
def agentLoop (model : List Message → Except ApiError ModelResponse) (env : Env) :
    Nat → LoopState → Except ApiError LoopState
  | 0, st => .ok st
  | fuel + 1, st =>
    if st.complete ∨ maxIterations ≤ st.iteration then .ok st
    else
      match agentIter model env st with
      | .ok st' => agentLoop model env fuel st'
      | .error e => .error e

/-- The value returned by one successful try of the
`processPromptWithMCP` body.  `messages` is not part of the JS return
object: it records the `session.messages = messages` write performed
just before returning. -/
structure LoopResult where
  response : String
  locators : List LocatorInfo
  totalSteps : Nat
  context : CtxUpdates
  success : Bool
  messages : List Message
deriving DecidableEq

/-- The loop accumulators at entry. -/
def initLoopState (initMsgs : List Message) : LoopState :=
  ⟨initMsgs, 0, "", [], {}, false⟩

/-- One full try of the `processPromptWithMCP` body: run the loop from
the given history and package the result
(`response: finalResult || 'Task completed successfully'`,
`totalSteps: iteration`). -/
def runAgentLoop (model : List Message → Except ApiError ModelResponse) (env : Env)
    (initMsgs : List Message) : Except ApiError LoopResult :=
  match agentLoop model env maxIterations (initLoopState initMsgs) with
  | .ok st =>
    .ok ⟨if st.finalResult = "" then "Task completed successfully" else st.finalResult,
         st.locators, st.iteration, st.context, true, st.messages⟩
  | .error e => .error e

/-- A model service that never throws, returning `f` applied to the
history. -/
def okModel (f : List Message → ModelResponse) :
    List Message → Except ApiError ModelResponse :=
  fun ms => .ok (f ms)

/-- `maxRetries` of `processPromptWithMCP`. -/
def maxRetries : Nat := 3

/-- The outcome of the retry loop around the conversation body: a
successful try's result, an error rethrown after the budget is spent, or
falling out of the `while (retryCount < maxRetries)` loop — the JS
function then returns `undefined`.  `delays` records the sleeps
performed (milliseconds) and `attempts` the number of tries of the body. -/
inductive RetryOutcome (R : Type) where
  | ok (result : R) (delays : List Nat) (attempts : Nat)
  | thrown (e : ApiError) (delays : List Nat) (attempts : Nat)
  | exhausted (delays : List Nat) (attempts : Nat)
deriving DecidableEq

/-- The number of tries of the body recorded in the outcome. -/
def RetryOutcome.attemptsOf {R : Type} : RetryOutcome R → Nat
  | .ok _ _ a => a
  | .thrown _ _ a => a
  | .exhausted _ a => a

/-- Did the retry loop end with a successful try? -/
def RetryOutcome.succeeded {R : Type} : RetryOutcome R → Bool
  | .ok _ _ _ => true
  | _ => false

/-- Did the retry loop rethrow an error? -/
def RetryOutcome.isThrown {R : Type} : RetryOutcome R → Bool
  | .thrown _ _ _ => true
  | _ => false

/-- The successful result, if any. -/
def RetryOutcome.resultOf {R : Type} : RetryOutcome R → Option R
  | .ok r _ _ => some r
  | _ => none

/-- The `while (retryCount < maxRetries)` retry loop of
`processPromptWithMCP`.  On a throw, `retryCount` is incremented; a 529
(overloaded) error sleeps `retryCount * 2` seconds and continues without
a budget check; any other error is rethrown once
`retryCount >= maxRetries` and otherwise sleeps 1 second and continues. -/
def retryLoop {R : Type} (attempt : Nat → Except ApiError R) :
    Nat → Nat → Nat → List Nat → RetryOutcome R
  | 0, _, attempts, delays => .exhausted delays attempts
  | fuel + 1, retryCount, attempts, delays =>
    if retryCount < maxRetries then
      match attempt (attempts + 1) with
      | .ok r => .ok r delays (attempts + 1)
      | .error e =>
        let rc := retryCount + 1
        if e.status = some 529 then
          retryLoop attempt fuel rc (attempts + 1) (delays ++ [rc * 2000])
        else if maxRetries ≤ rc then
          .thrown e delays (attempts + 1)
        else
          retryLoop attempt fuel rc (attempts + 1) (delays ++ [1000])
    else .exhausted delays attempts

/-- The retry loop started at `retryCount = 0`; fuel `maxRetries + 1`
covers every reachable iteration, since `retryCount` grows with each
recursive call and the loop stops at `maxRetries`. -/
def runRetries {R : Type} (attempt : Nat → Except ApiError R) : RetryOutcome R :=
  retryLoop attempt (maxRetries + 1) 0 0 []

/-- `APIServer.processPromptWithMCP(message, session)`: build the
history from the session plus the new user message and run the
conversation body under the retry loop. -/
def processPromptWithMCP (env : Env) (message : String) (session : List Message) :
    RetryOutcome LoopResult :=
  runRetries fun k =>
    runAgentLoop (fun ms => env.model k ms) env (session ++ [⟨"user", .text message⟩])

/-- A session's `context` object. -/
structure SessionContext where
  currentUrl : Option String
  lastScreenshot : Option Nat
  browserState : String
  completedActions : List String
deriving DecidableEq

/-- One session record of the `SessionManager`. -/
structure Session where
  id : String
  createdAt : Nat
  lastActivity : Nat
  messages : List Message
  context : SessionContext
  locatorHistory : List LocatorInfo
  totalSteps : Nat
deriving DecidableEq

/-- The fresh session record built by `createSession`. -/
def newSession (id : String) (now : Nat) : Session :=
  ⟨id, now, now, [], ⟨none, none, "closed", []⟩, [], 0⟩

/-- One summary entry of `getAllSessions`. -/
structure SessionSummary where
  id : String
  createdAt : Nat
  lastActivity : Nat
  messageCount : Nat
  totalSteps : Nat
  browserState : String
  currentUrl : Option String
deriving DecidableEq

/-- The `sessions` Map of the `SessionManager`, as an association list
in insertion order (JS `Map` preserves insertion order; `set` on an
existing key keeps its position). -/
structure SessionManager where
  sessions : List (String × Session)
deriving DecidableEq

/-- `Map.get`: the first (only) entry with the given key. -/
def lookupSession : List (String × Session) → String → Option Session
  | [], _ => none
  | (k, s) :: rest, sid => if k = sid then some s else lookupSession rest sid

/-- `Map.set`: replace the entry in place, or append a new one. -/
def setSession : List (String × Session) → String → Session → List (String × Session)
  | [], sid, v => [(sid, v)]
  | (k, s) :: rest, sid, v =>
    if k = sid then (sid, v) :: rest else (k, s) :: setSession rest sid v

/-- `Map.delete`: remove the entry with the given key. -/
def removeSession : List (String × Session) → String → List (String × Session)
  | [], _ => []
  | (k, s) :: rest, sid =>
    if k = sid then removeSession rest sid else (k, s) :: removeSession rest sid

/-- `sessionTimeout`: 30 minutes in milliseconds. -/
def sessionTimeout : Nat := 30 * 60 * 1000

/-- `SessionManager.createSession(sessionId)`: store a fresh session
record under the given id (the route passes a fresh uuid). -/
def SessionManager.createSession (m : SessionManager) (now : Nat) (id : String) :
    Session × SessionManager :=
  let session := newSession id now
  (session, ⟨setSession m.sessions id session⟩)

/-- `SessionManager.getSession(sessionId)`: on a hit, the stored record's
`lastActivity` is set to the current time (an in-place mutation of the
stored object) and the refreshed record is returned. -/
def SessionManager.getSession (m : SessionManager) (now : Nat) (sessionId : String) :
    Option Session × SessionManager :=
  match lookupSession m.sessions sessionId with
  | some session =>
    let s' := { session with lastActivity := now }
    (some s', ⟨setSession m.sessions sessionId s'⟩)
  | none => (none, m)

/-- The `updates` object passed to `updateSession`; absent fields are
`none` (`Object.assign` overwrites only the fields present). -/
structure SessionPatch where
  messages : Option (List Message) := none
  locatorHistory : Option (List LocatorInfo) := none
  totalSteps : Option Nat := none
  context : Option SessionContext := none
deriving DecidableEq

/-- `Object.assign(session, updates)`. -/
def applyPatch (s : Session) (p : SessionPatch) : Session :=
  { s with
    messages := p.messages.getD s.messages,
    locatorHistory := p.locatorHistory.getD s.locatorHistory,
    totalSteps := p.totalSteps.getD s.totalSteps,
    context := p.context.getD s.context }

/-- `SessionManager.updateSession(sessionId, updates)`: assign the patch
onto the stored record and refresh `lastActivity`. -/
def SessionManager.updateSession (m : SessionManager) (now : Nat) (sessionId : String)
    (updates : SessionPatch) : Option Session × SessionManager :=
  match lookupSession m.sessions sessionId with
  | some session =>
    let s' := { applyPatch session updates with lastActivity := now }
    (some s', ⟨setSession m.sessions sessionId s'⟩)
  | none => (none, m)

/-- `SessionManager.deleteSession(sessionId)`. -/
def SessionManager.deleteSession (m : SessionManager) (sessionId : String) :
    Bool × SessionManager :=
  ((lookupSession m.sessions sessionId).isSome, ⟨removeSession m.sessions sessionId⟩)

/-- `SessionManager.getAllSessions()`. -/
def SessionManager.getAllSessions (m : SessionManager) : List SessionSummary :=
  m.sessions.map fun p =>
    ⟨p.2.id, p.2.createdAt, p.2.lastActivity, p.2.messages.length, p.2.totalSteps,
     p.2.context.browserState, p.2.context.currentUrl⟩

/-- The timers registered by `scheduleCleanup(sessionId)` inside
`createSession`: exactly one `setTimeout` with delay `sessionTimeout`,
keyed by the session id. -/
def scheduleCleanupTimers (sessionId : String) : List (String × Nat) :=
  [(sessionId, sessionTimeout)]

/-- The `setTimeout` callback of `scheduleCleanup`, evaluated at its
actual fire time `now`: delete the session only if it still exists and
`now - lastActivity > sessionTimeout`. -/
def SessionManager.cleanupFire (m : SessionManager) (sessionId : String) (now : Nat) :
    SessionManager :=
  match lookupSession m.sessions sessionId with
  | some session =>
    if now - session.lastActivity > sessionTimeout then ⟨removeSession m.sessions sessionId⟩
    else m
  | none => m

/-- The body of a POST `/api/prompt` request. -/
structure PromptBody where
  prompt : Option String
  sessionId : Option String
  continueSession : Bool
deriving DecidableEq

/-- The JSON body of a successful `/api/prompt` response
(`{...result, sessionId, canContinue, sessionInfo}`). -/
structure PromptReply where
  response : String
  locators : List LocatorInfo
  totalSteps : Nat
  context : CtxUpdates
  success : Bool
  sessionId : String
  canContinue : Bool
  infoTotalSteps : Nat
  infoTotalLocators : Nat
deriving DecidableEq

/-- An HTTP reply of the prompt route: a success body or an error status
with its message. -/
inductive ApiResponse where
  | ok (r : PromptReply)
  | err (status : Nat) (msg : String)
deriving DecidableEq

/-- Is the reply an error status? -/
def ApiResponse.isErr : ApiResponse → Bool
  | .ok _ => false
  | .err _ _ => true

/-- The `totalSteps` field of a success reply. -/
def replyTotalStepsOf : ApiResponse → Option Nat
  | .ok r => some r.totalSteps
  | .err _ _ => none

/-- The number of tool invocations recorded in a history: the total
count of tool-result entries across its combined user turns. -/
def countToolResults (msgs : List Message) : Nat :=
  (msgs.map fun msg =>
    match msg.content with
    | .toolResults rs => rs.length
    | _ => 0).foldl (· + ·) 0

/-- The `session.messages = messages` write performed by a successful
`processPromptWithMCP` body on the live stored object: a raw field
write, not an `updateSession` (no `lastActivity` refresh). -/
def setSessionMessages (m : SessionManager) (sid : String) (msgs : List Message) :
    SessionManager :=
  match lookupSession m.sessions sid with
  | some s => ⟨setSession m.sessions sid { s with messages := msgs }⟩
  | none => m

/-- `{...session.context, ...result.context}`: the context patch fields
present override the session's. -/
def mergeContext (c : SessionContext) (u : CtxUpdates) : SessionContext :=
  { currentUrl :=
      match u.currentUrl with
      | some x => some x
      | none => c.currentUrl,
    lastScreenshot :=
      match u.lastScreenshot with
      | some x => some x
      | none => c.lastScreenshot,
    browserState := u.browserState.getD c.browserState,
    completedActions := c.completedActions }

/-- The tail of the `/api/prompt` handler after the session is resolved:
run `processPromptWithMCP`; on success commit the history write and the
`updateSession` patch and answer 200; on a rethrown error answer 500; on
the exhausted-budget `undefined` return, reading `result.locators`
throws, caught by the route's try/catch, answering 500 — in both failure
cases the store is left as it stood. -/
def handlePromptCore (m : SessionManager) (env : Env) (p : String) (session : Session) :
    ApiResponse × SessionManager :=
  match processPromptWithMCP env p session.messages with
  | .ok result _ _ =>
    let m2 := setSessionMessages m session.id result.messages
    let patch : SessionPatch :=
      { messages := none,
        locatorHistory := some (session.locatorHistory ++ result.locators),
        totalSteps := some (session.totalSteps + result.totalSteps),
        context := some (mergeContext session.context result.context) }
    let m3 := (SessionManager.updateSession m2 env.now session.id patch).2
    (.ok { response := result.response, locators := result.locators,
           totalSteps := result.totalSteps, context := result.context,
           success := result.success, sessionId := session.id, canContinue := true,
           infoTotalSteps := session.totalSteps + result.totalSteps,
           infoTotalLocators := session.locatorHistory.length + result.locators.length },
     m3)
  | .thrown _ _ _ => (.err 500 "Internal server error", m)
  | .exhausted _ _ => (.err 500 "Internal server error", m)

/-- The POST `/api/prompt` handler: reject a missing or blank prompt
with 400 before touching the store; then resolve the session — continue
an existing one when a truthy `sessionId` comes with
`continueSession = true` (404 if absent), otherwise create a fresh one
under `freshId` (the uuid) — and run the conversation. -/
def handlePrompt (m : SessionManager) (env : Env) (freshId : String) (body : PromptBody) :
    ApiResponse × SessionManager :=
  match body.prompt with
  | none => (.err 400 "Prompt is required", m)
  | some p =>
    if trimString p = "" then (.err 400 "Prompt is required", m)
    else
      match truthy body.sessionId, body.continueSession with
      | some sid, true =>
        match SessionManager.getSession m env.now sid with
        | (none, m1) => (.err 404 "Session not found", m1)
        | (some session, m1) => handlePromptCore m1 env p session
      | _, _ =>
        let (session, m1) := SessionManager.createSession m env.now freshId
        handlePromptCore m1 env p session

/-- A tool call with no argument fields. -/
def noArgs : ToolArgs := {}

/-- The arguments of the end-to-end navigate scenario. -/
def navArgs : ToolArgs := { url := some "https://example.com" }

/-- Arguments carrying an explicit `selector` field. -/
def selArgs : ToolArgs := { selector := some "#submit" }

/-- A model behavior that requests one navigate tool call on the first
query and then answers with plain text. -/
def navModel : List Message → ModelResponse := fun ms =>
  if ms.length ≤ 1 then ⟨[ContentBlock.toolUse "toolu_1" "playwright_playwright_navigate" navArgs]⟩
  else ⟨[ContentBlock.text "Done. Navigated to example.com."]⟩

/-- The environment of the end-to-end navigate scenario: the model of
`navModel`, a tool server answering every call with a success result. -/
def navEnv : Env :=
  ⟨fun _ ms => .ok (navModel ms),
   fun _ _ => .ok ⟨some [⟨"text", "Navigated to https://example.com"⟩], ""⟩, 0⟩

/-- An environment whose model service always throws a non-overloaded
error and whose tool servers are down; clock at 100. -/
def failEnv : Env :=
  ⟨fun _ _ => .error ⟨none, "boom"⟩, fun _ _ => .error "no tool server", 100⟩

/-- A store holding one session `s1` last active at time 0. -/
def m6 : SessionManager := ⟨[("s1", newSession "s1" 0)]⟩

/-- A prompt request continuing session `s1`. -/
def body6 : PromptBody := ⟨some "hi", some "s1", true⟩

/-- The request of the end-to-end navigate scenario (new session). -/
def navBody : PromptBody := ⟨some "navigate to example.com", none, false⟩

/-- Lookup after `Map.set`: the written key reads back the new value,
every other key is untouched. -/
theorem lookupSession_setSession (l : List (String × Session)) (k : String) (v : Session)
    (k' : String) :
    lookupSession (setSession l k v) k' = if k = k' then some v else lookupSession l k' := by
  induction l with
  | nil => simp [setSession, lookupSession]
  | cons p rest ih =>
    obtain ⟨a, s⟩ := p
    by_cases hak : a = k
    · subst hak
      simp only [setSession, if_pos rfl, lookupSession]
      by_cases hk : a = k' <;> simp [hk, lookupSession]
    · have hs : setSession ((a, s) :: rest) k v = (a, s) :: setSession rest k v := by
        simp [setSession, hak]
      rw [hs]
      by_cases ha : a = k'
      · subst ha
        have hk : ¬ k = a := fun h => hak h.symm
        simp [lookupSession, hk]
      · simp [lookupSession, ha, ih]

/-- Lookup after `Map.delete` of the same key is `none`. -/
theorem lookupSession_removeSession_self (l : List (String × Session)) (k : String) :
    lookupSession (removeSession l k) k = none := by
  induction l with
  | nil => simp [removeSession, lookupSession]
  | cons p rest ih =>
    obtain ⟨a, s⟩ := p
    by_cases hak : a = k <;> simp [removeSession, lookupSession, hak, ih]

/-- Lookup after `Map.delete` of a different key is unchanged. -/
theorem lookupSession_removeSession_other (l : List (String × Session)) (k k' : String)
    (h : k' ≠ k) :
    lookupSession (removeSession l k) k' = lookupSession l k' := by
  induction l with
  | nil => simp [removeSession]
  | cons p rest ih =>
    obtain ⟨a, s⟩ := p
    by_cases hak : a = k
    · subst hak
      have hna : ¬ a = k' := fun h2 => h h2.symm
      simp [removeSession, lookupSession, hna, ih]
    · simp [removeSession, lookupSession, hak, ih]

/-- A pending request's handler resolves with the unique record carrying
its id when the stream's ids are distinct, in any arrival order. -/
theorem resolveRequest_eq_of_nodup (records : List MCPRecord) (r : MCPRecord)
    (hnd : (records.map MCPRecord.id).Nodup) (hr : r ∈ records) :
    resolveRequest r.id records = some r := by
  induction records with
  | nil => cases hr
  | cons r0 rest ih =>
    rw [List.map_cons, List.nodup_cons] at hnd
    rcases List.mem_cons.mp hr with h | h
    · subst h; simp [resolveRequest]
    · have hne : r0.id ≠ r.id := by
        intro he
        exact hnd.1 (by rw [he]; exact List.mem_map_of_mem MCPRecord.id h)
      simp [resolveRequest, hne, ih hnd.2 h]

/-- C1 (corrected).  Correlation on one bridge: a pending request's data
handler scans arriving records in order and resolves with the first one
whose id equals its own, so when the stream's correlation ids are
distinct every request resolves with exactly its own response, for every
arrival order; and two `callTool` requests issued at distinct
wall-clock milliseconds receive distinct correlation ids (`Date.now()`).
The original uniqueness claim fails for same-millisecond issuance, see
the counterexample. -/
theorem C1_correlation_amended :
    (∀ (records : List MCPRecord) (r : MCPRecord),
      (records.map MCPRecord.id).Nodup → r ∈ records →
      resolveRequest r.id records = some r)
    ∧ (∀ (t1 t2 : Nat) (n1 n2 : String) (a1 a2 : ToolArgs),
      t1 ≠ t2 → (mkCallToolRequest t1 n1 a1).id ≠ (mkCallToolRequest t2 n2 a2).id) :=
  ⟨resolveRequest_eq_of_nodup, fun _ _ _ _ _ _ h => h⟩

/-- C1 witness: two responses arriving in the reverse of issuance order
each resolve their own request. -/
theorem C1_witness :
    resolveRequest 5 [⟨7, "beta"⟩, ⟨5, "alpha"⟩] = some ⟨5, "alpha"⟩
    ∧ resolveRequest 7 [⟨7, "beta"⟩, ⟨5, "alpha"⟩] = some ⟨7, "beta"⟩ :=
  ⟨C1_correlation_amended.1 [⟨7, "beta"⟩, ⟨5, "alpha"⟩] ⟨5, "alpha"⟩ (by decide) (by decide),
   C1_correlation_amended.1 [⟨7, "beta"⟩, ⟨5, "alpha"⟩] ⟨7, "beta"⟩ (by decide) (by decide)⟩

/-- C1 counterexample: `callTool` takes its correlation id from
`Date.now()`, so a request issued in the same millisecond as a
still-pending one receives the id already pending on the bridge — the
claimed uniqueness among currently-pending requests fails. -/
theorem C1_counterexample :
    (mkCallToolRequest 1700000000000 "playwright_click" noArgs).id
      ∈ sendPending [] (mkCallToolRequest 1700000000000 "playwright_fill" noArgs) := by
  decide

/-- The extractor leaves `locator` null when no selector-bearing
argument field is present, whatever the tool result. -/
theorem extractLocatorInfo_locator_none (name : String) (args : ToolArgs)
    (res : Option ToolCallResult) (ts : Nat)
    (h1 : args.selector = none) (h2 : args.locator = none) (h3 : args.text = none)
    (h4 : args.role = none ∨ args.name = none) :
    (extractLocatorInfo name args res ts).locator = none := by
  unfold extractLocatorInfo
  split
  · rcases res with _ | r
    · rcases h4 with h4 | h4 <;> simp [h1, h2, h3, h4, truthy]
    · rcases hc : r.content with _ | cs <;>
        rcases h4 with h4 | h4 <;> simp [hc, h1, h2, h3, h4, truthy]
  · rfl

/-- On a playwright-prefixed tool, a non-empty explicit `selector`
argument becomes the record's locator verbatim. -/
theorem extractLocatorInfo_locator_selector (name : String) (args : ToolArgs)
    (res : Option ToolCallResult) (ts : Nat) (s : String)
    (hp : containsSub name "playwright_" = true) (hs : args.selector = some s)
    (hne : s ≠ "") :
    (extractLocatorInfo name args res ts).locator = some s := by
  unfold extractLocatorInfo
  rw [if_pos hp]
  rcases res with _ | r
  · simp [hs, truthy, hne]
  · rcases hc : r.content with _ | cs <;> simp [hc, hs, truthy, hne]

/-- The record's `tool` field is always the invoked tool's name. -/
theorem extractLocatorInfo_tool (name : String) (args : ToolArgs)
    (res : Option ToolCallResult) (ts : Nat) :
    (extractLocatorInfo name args res ts).tool = name := by
  unfold extractLocatorInfo
  split
  · rcases res with _ | r
    · rfl
    · rcases hc : r.content with _ | cs <;> simp [hc]
  · rfl

/-- A call with no selector-bearing argument fields appends nothing to
the locator trail, whether it succeeds or fails. -/
theorem execTools_single_none (env : Env) (tu : ToolUse) (ctx : CtxUpdates)
    (h1 : tu.input.selector = none) (h2 : tu.input.locator = none)
    (h3 : tu.input.text = none) (h4 : tu.input.role = none ∨ tu.input.name = none) :
    (execTools env [tu] ctx).locators = [] := by
  have hn : ∀ r, (extractLocatorInfo tu.name tu.input r env.now).locator = none :=
    fun r => extractLocatorInfo_locator_none tu.name tu.input r env.now h1 h2 h3 h4
  unfold execTools
  rcases he : env.toolExec tu.name tu.input with e | r <;> simp [he, hn, execTools]

/-- A playwright call with a non-empty `selector` argument appends
exactly one record carrying that selector, whether it succeeds or fails. -/
theorem execTools_single_selector (env : Env) (tu : ToolUse) (ctx : CtxUpdates) (s : String)
    (hp : containsSub tu.name "playwright_" = true) (hs : tu.input.selector = some s)
    (hne : s ≠ "") :
    (execTools env [tu] ctx).locators.map LocatorInfo.locator = [some s]
    ∧ (execTools env [tu] ctx).locators.map LocatorInfo.tool = [tu.name] := by
  have hsel : ∀ r, (extractLocatorInfo tu.name tu.input r env.now).locator = some s :=
    fun r => extractLocatorInfo_locator_selector tu.name tu.input r env.now s hp hs hne
  unfold execTools
  rcases he : env.toolExec tu.name tu.input with e | r <;>
    simp [he, hsel, extractLocatorInfo_tool, execTools]

/-- C5 (corrected).  A tool call whose arguments carry none of the
selector-bearing fields (`selector`, `locator`, `text`, `role`+`name`)
gets a null locator and appends nothing to the trail; and a call to a
tool whose namespaced name contains "playwright_" with a non-empty
explicit `selector` field always appends exactly one record whose
locator is that selector value verbatim.  The original claim fails for
tools outside the playwright namespace (and for an empty-string
selector, which is falsy in JS): see the counterexample. -/
theorem C5_locator_amended :
    (∀ (name : String) (args : ToolArgs) (res : Option ToolCallResult) (ts : Nat),
      args.selector = none → args.locator = none → args.text = none →
      (args.role = none ∨ args.name = none) →
      (extractLocatorInfo name args res ts).locator = none)
    ∧ (∀ (env : Env) (tu : ToolUse) (ctx : CtxUpdates),
      tu.input.selector = none → tu.input.locator = none → tu.input.text = none →
      (tu.input.role = none ∨ tu.input.name = none) →
      (execTools env [tu] ctx).locators = [])
    ∧ (∀ (name : String) (args : ToolArgs) (res : Option ToolCallResult) (ts : Nat) (s : String),
      containsSub name "playwright_" = true → args.selector = some s → s ≠ "" →
      (extractLocatorInfo name args res ts).locator = some s)
    ∧ (∀ (env : Env) (tu : ToolUse) (ctx : CtxUpdates) (s : String),
      containsSub tu.name "playwright_" = true → tu.input.selector = some s → s ≠ "" →
      (execTools env [tu] ctx).locators.map LocatorInfo.locator = [some s]
      ∧ (execTools env [tu] ctx).locators.map LocatorInfo.tool = [tu.name]) :=
  ⟨extractLocatorInfo_locator_none,
   fun env tu ctx h1 h2 h3 h4 => execTools_single_none env tu ctx h1 h2 h3 h4,
   extractLocatorInfo_locator_selector,
   fun env tu ctx s hp hs hne => execTools_single_selector env tu ctx s hp hs hne⟩

/-- C5 witness: a playwright click with selector `#submit` yields one
trail record carrying exactly that selector. -/
theorem C5_witness :
    (extractLocatorInfo "playwright_playwright_click" selArgs
        (some ⟨some [⟨"text", "clicked"⟩], ""⟩) 7).locator = some "#submit"
    ∧ (execTools navEnv [⟨"t2", "playwright_playwright_click", selArgs⟩] {}).locators.map
        LocatorInfo.locator = [some "#submit"] :=
  ⟨C5_locator_amended.2.2.1 "playwright_playwright_click" selArgs
      (some ⟨some [⟨"text", "clicked"⟩], ""⟩) 7 "#submit" (by decide) rfl (by decide),
   (C5_locator_amended.2.2.2 navEnv ⟨"t2", "playwright_playwright_click", selArgs⟩ {} "#submit"
      (by decide) rfl (by decide)).1⟩

/-- C5 counterexample: a call to the non-playwright tool `custom_echo`
whose arguments carry an explicit `selector` field produces a null
locator and appends no record to the trail, refuting the claim that an
explicit selector field always yields a record with that value. -/
theorem C5_counterexample :
    (extractLocatorInfo "custom_echo" selArgs (some ⟨some [⟨"text", "ok"⟩], ""⟩) 0).locator = none
    ∧ (execTools navEnv [⟨"t1", "custom_echo", selArgs⟩] {}).locators = [] := by
  constructor <;> rfl

/-- With a model service that answers every query, one loop iteration
always succeeds and advances the iteration counter by exactly one,
whatever the tool servers do. -/
theorem agentIter_okModel (f : List Message → ModelResponse) (env : Env) (st : LoopState) :
    ∃ st', agentIter (okModel f) env st = .ok st' ∧ st'.iteration = st.iteration + 1 := by
  simp only [agentIter, okModel]
  split <;> exact ⟨_, rfl, rfl⟩

/-- The while-loop always terminates successfully under a total model,
adding at most `fuel` iterations. -/
theorem agentLoop_okModel (f : List Message → ModelResponse) (env : Env) :
    ∀ (fuel : Nat) (st : LoopState), ∃ st', agentLoop (okModel f) env fuel st = .ok st'
      ∧ st'.iteration ≤ st.iteration + fuel := by
  intro fuel
  induction fuel with
  | zero => intro st; exact ⟨st, rfl, Nat.le_refl _⟩
  | succ n ih =>
    intro st
    unfold agentLoop
    by_cases h : (st.complete ∨ maxIterations ≤ st.iteration)
    · rw [if_pos h]; exact ⟨st, rfl, by omega⟩
    · rw [if_neg h]
      obtain ⟨st1, h1, h2⟩ := agentIter_okModel f env st
      rw [h1]
      obtain ⟨st', h3, h4⟩ := ih st1
      exact ⟨st', h3, by omega⟩

/-- One try of the conversation body under a total model: success, at
most `maxIterations` iterations, non-empty response text. -/
theorem runAgentLoop_okModel (f : List Message → ModelResponse) (env : Env)
    (init : List Message) :
    ∃ r, runAgentLoop (okModel f) env init = .ok r ∧ r.totalSteps ≤ maxIterations
      ∧ r.response ≠ "" := by
  obtain ⟨st', h1, h2⟩ := agentLoop_okModel f env maxIterations (initLoopState init)
  refine ⟨⟨if st'.finalResult = "" then "Task completed successfully" else st'.finalResult,
          st'.locators, st'.iteration, st'.context, true, st'.messages⟩, ?_, ?_, ?_⟩
  · unfold runAgentLoop
    rw [h1]
  · simpa [initLoopState] using h2
  · show (if st'.finalResult = "" then "Task completed successfully" else st'.finalResult) ≠ ""
    by_cases hf : st'.finalResult = ""
    · rw [if_pos hf]; decide
    · rw [if_neg hf]; exact hf

/-- A first try that succeeds ends the retry loop at once: no delays,
one attempt. -/
theorem runRetries_first_ok {R : Type} (a : Nat → Except ApiError R) (r : R)
    (h : a 1 = .ok r) : runRetries a = .ok r [] 1 := by
  unfold runRetries
  rw [show maxRetries + 1 = 3 + 1 from rfl]
  unfold retryLoop
  rw [if_pos (by decide : (0 : Nat) < maxRetries)]
  rw [show (0 : Nat) + 1 = 1 from rfl, h]

/-- C2 (confirmed).  For every model behavior (any replies, with or
without tool calls) and any tool servers, a prompt-processing run
performs at most `maxIterations = 20` model-query iterations
(`totalSteps` counts them) and returns a non-empty response without
raising an error: the accumulated text when any was produced, otherwise
"Task completed successfully". -/
theorem C2_cap_and_nonempty (f : Nat → List Message → ModelResponse)
    (te : String → ToolArgs → Except String ToolCallResult) (now : Nat)
    (msg : String) (history : List Message) :
    ∃ r d a, processPromptWithMCP ⟨fun k ms => .ok (f k ms), te, now⟩ msg history = .ok r d a
      ∧ r.totalSteps ≤ maxIterations ∧ r.response ≠ "" ∧ a ≤ maxRetries := by
  obtain ⟨r, h1, h2, h3⟩ := runAgentLoop_okModel (f 1) ⟨fun k ms => .ok (f k ms), te, now⟩
    (history ++ [⟨"user", .text msg⟩])
  refine ⟨r, [], 1, ?_, h2, h3, by decide⟩
  unfold processPromptWithMCP
  exact runRetries_first_ok _ r h1

/-- Every requested call of a step yields exactly one result entry,
whatever mix of successes and failures the tool servers produce. -/
theorem execTools_length (env : Env) (tus : List ToolUse) (ctx : CtxUpdates) :
    (execTools env tus ctx).results.length = tus.length := by
  induction tus generalizing ctx with
  | nil => rfl
  | cons tu rest ih =>
    unfold execTools
    rcases he : env.toolExec tu.name tu.input with e | r <;> simp [he, ih]

/-- The result entries carry the originating call ids, in call order. -/
theorem execTools_ids (env : Env) (tus : List ToolUse) (ctx : CtxUpdates) :
    (execTools env tus ctx).results.map ToolResultEntry.tool_use_id = tus.map ToolUse.id := by
  induction tus generalizing ctx with
  | nil => rfl
  | cons tu rest ih =>
    unfold execTools
    rcases he : env.toolExec tu.name tu.input with e | r <;> simp [he, ih]

/-- A failing call is wrapped as an `is_error` entry tagged with its
call id, holding the error text. -/
theorem execTools_single_error (env : Env) (tu : ToolUse) (ctx : CtxUpdates) (msg : String)
    (he : env.toolExec tu.name tu.input = .error msg) :
    (execTools env [tu] ctx).results =
      [⟨tu.id, [⟨"text", "Error: " ++ msg ++ ". Please try alternative approaches or selectors."⟩],
        true⟩] := by
  unfold execTools
  rw [he]
  simp [execTools]

/-- A tool-executing iteration never raises: it appends the assistant
turn and then the one combined user turn holding all the step's tool
results, and returns control to the model with the loop not complete. -/
theorem agentIter_toolStep (f : List Message → ModelResponse) (env : Env) (st : LoopState)
    (h : toolUsesOf (f st.messages).content ≠ []) :
    ∃ st', agentIter (okModel f) env st = .ok st'
      ∧ st'.messages = st.messages ++
          [⟨"assistant", .blocks (f st.messages).content⟩,
           ⟨"user", .toolResults
             (execTools env (toolUsesOf (f st.messages).content) st.context).results⟩]
      ∧ st'.complete = st.complete := by
  have hne : ¬ ((toolUsesOf (f st.messages).content).isEmpty = true) := by
    cases hl : toolUsesOf (f st.messages).content
    · exact absurd hl h
    · simp [List.isEmpty]
  simp only [agentIter, okModel]
  rw [if_neg hne]
  refine ⟨_, rfl, ?_, rfl⟩
  simp

/-- C7 (confirmed).  Within one tool-executing step every requested call
gets exactly one tool-result entry tagged with its originating call id,
in call order, a failing call being wrapped as an `is_error` entry
rather than aborting the other calls; and the step appends all outcomes
to the history as one combined user turn after the assistant turn,
returning to the model without raising to the caller. -/
theorem C7_failures_absorbed :
    (∀ (env : Env) (tus : List ToolUse) (ctx : CtxUpdates),
      (execTools env tus ctx).results.length = tus.length
      ∧ (execTools env tus ctx).results.map ToolResultEntry.tool_use_id = tus.map ToolUse.id)
    ∧ (∀ (env : Env) (tu : ToolUse) (ctx : CtxUpdates) (msg : String),
      env.toolExec tu.name tu.input = .error msg →
      (execTools env [tu] ctx).results =
        [⟨tu.id,
          [⟨"text", "Error: " ++ msg ++ ". Please try alternative approaches or selectors."⟩],
          true⟩])
    ∧ (∀ (f : List Message → ModelResponse) (env : Env) (st : LoopState),
      toolUsesOf (f st.messages).content ≠ [] →
      ∃ st', agentIter (okModel f) env st = .ok st'
        ∧ st'.messages = st.messages ++
            [⟨"assistant", .blocks (f st.messages).content⟩,
             ⟨"user", .toolResults
               (execTools env (toolUsesOf (f st.messages).content) st.context).results⟩]
        ∧ st'.complete = st.complete) :=
  ⟨fun env tus ctx => ⟨execTools_length env tus ctx, execTools_ids env tus ctx⟩,
   execTools_single_error, agentIter_toolStep⟩

/-- C7 witness: with the tool servers down, a one-call step still yields
exactly its wrapped error entry tagged `t9`. -/
theorem C7_witness :
    (execTools failEnv [⟨"t9", "custom_echo", noArgs⟩] {}).results =
      [⟨"t9", [⟨"text", "Error: no tool server. Please try alternative approaches or selectors."⟩],
        true⟩] :=
  C7_failures_absorbed.2.1 failEnv ⟨"t9", "custom_echo", noArgs⟩ {} "no tool server" rfl

/-- At most `maxRetries` tries of the body are ever made, whatever the
outcomes: the recursion preserves `attempts = retryCount ≤ maxRetries`. -/
theorem retryLoop_attempts_le {R : Type} (a : Nat → Except ApiError R) :
    ∀ (fuel rc att : Nat) (ds : List Nat), att = rc → rc ≤ maxRetries →
      (retryLoop a fuel rc att ds).attemptsOf ≤ maxRetries := by
  intro fuel
  induction fuel with
  | zero =>
    intro rc att ds h1 h2
    subst h1
    simpa [retryLoop, RetryOutcome.attemptsOf] using h2
  | succ n ih =>
    intro rc att ds h1 h2
    subst h1
    unfold retryLoop
    by_cases hlt : att < maxRetries
    · rw [if_pos hlt]
      rcases ha : a (att + 1) with e | r
      · dsimp only
        by_cases h529 : e.status = some 529
        · rw [if_pos h529]
          exact ih (att + 1) (att + 1) _ rfl (by omega)
        · rw [if_neg h529]
          by_cases hge : maxRetries ≤ att + 1
          · rw [if_pos hge]
            show att + 1 ≤ maxRetries
            omega
          · rw [if_neg hge]
            exact ih (att + 1) (att + 1) _ rfl (by omega)
      · show att + 1 ≤ maxRetries
        omega
    · rw [if_neg hlt]
      show att ≤ maxRetries
      omega

/-- A body overloaded on the first two tries and succeeding on the third
completes within the budget, after backoffs of 2s then 4s. -/
theorem runRetries_overload_twice {R : Type} (a : Nat → Except ApiError R)
    (e1 e2 : ApiError) (r : R)
    (h1 : a 1 = .error e1) (hs1 : e1.status = some 529)
    (h2 : a 2 = .error e2) (hs2 : e2.status = some 529)
    (h3 : a 3 = .ok r) :
    runRetries a = .ok r [2000, 4000] 3 := by
  unfold runRetries
  rw [show maxRetries + 1 = 3 + 1 from rfl]
  unfold retryLoop
  rw [if_pos (by decide : (0 : Nat) < maxRetries), show (0 : Nat) + 1 = 1 from rfl, h1]
  dsimp only
  rw [if_pos hs1]
  show retryLoop a 3 1 1 [2000] = _
  rw [show (3 : Nat) = 2 + 1 from rfl]
  unfold retryLoop
  rw [if_pos (by decide : (1 : Nat) < maxRetries), show (1 : Nat) + 1 = 2 from rfl, h2]
  dsimp only
  rw [if_pos hs2]
  show retryLoop a 2 2 2 [2000, 4000] = _
  rw [show (2 : Nat) = 1 + 1 from rfl]
  unfold retryLoop
  rw [if_pos (by decide : (2 : Nat) < maxRetries), show (2 : Nat) + 1 = 3 from rfl, h3]

/-- A body overloaded on every try spends the whole budget — 3 tries and
backoffs of 2s, 4s, 6s — and then falls out of the retry loop with no
result and no rethrown error (the JS function returns `undefined`). -/
theorem runRetries_always_overloaded {R : Type} (a : Nat → Except ApiError R) (e : ApiError)
    (h : ∀ k, a k = .error e) (hs : e.status = some 529) :
    runRetries a = .exhausted [2000, 4000, 6000] 3 := by
  unfold runRetries
  rw [show maxRetries + 1 = 3 + 1 from rfl]
  unfold retryLoop
  rw [if_pos (by decide : (0 : Nat) < maxRetries), h]
  dsimp only
  rw [if_pos hs]
  show retryLoop a 3 1 1 [2000] = _
  rw [show (3 : Nat) = 2 + 1 from rfl]
  unfold retryLoop
  rw [if_pos (by decide : (1 : Nat) < maxRetries), h]
  dsimp only
  rw [if_pos hs]
  show retryLoop a 2 2 2 [2000, 4000] = _
  rw [show (2 : Nat) = 1 + 1 from rfl]
  unfold retryLoop
  rw [if_pos (by decide : (2 : Nat) < maxRetries), h]
  dsimp only
  rw [if_pos hs]
  show retryLoop a 1 3 3 [2000, 4000, 6000] = _
  rw [show (1 : Nat) = 0 + 1 from rfl]
  unfold retryLoop
  rw [if_neg (by decide : ¬ ((3 : Nat) < maxRetries))]

/-- A body failing every try with a non-overload error retries after 1s
twice and then rethrows the error on the third try. -/
theorem runRetries_always_failing {R : Type} (a : Nat → Except ApiError R) (e : ApiError)
    (h : ∀ k, a k = .error e) (hs : ¬ e.status = some 529) :
    runRetries a = .thrown e [1000, 1000] 3 := by
  unfold runRetries
  rw [show maxRetries + 1 = 3 + 1 from rfl]
  unfold retryLoop
  rw [if_pos (by decide : (0 : Nat) < maxRetries), h]
  dsimp only
  rw [if_neg hs, if_neg (by decide : ¬ (maxRetries ≤ (0 : Nat) + 1))]
  show retryLoop a 3 1 1 [1000] = _
  rw [show (3 : Nat) = 2 + 1 from rfl]
  unfold retryLoop
  rw [if_pos (by decide : (1 : Nat) < maxRetries), h]
  dsimp only
  rw [if_neg hs, if_neg (by decide : ¬ (maxRetries ≤ (1 : Nat) + 1))]
  show retryLoop a 2 2 2 [1000, 1000] = _
  rw [show (2 : Nat) = 1 + 1 from rfl]
  unfold retryLoop
  rw [if_pos (by decide : (2 : Nat) < maxRetries), h]
  dsimp only
  rw [if_neg hs, if_pos (by decide : maxRetries ≤ (2 : Nat) + 1)]

/-- C3 (corrected).  The conversation body is tried at most
`maxRetries = 3` times per prompt-processing call (a budget shared
across the whole loop); an overloaded (status 529) failure on try `k`
sleeps `k * 2` seconds before the next loop test; any other failure
sleeps 1 second and retries, except on the last try, where the error is
rethrown.  A service overloaded exactly twice then succeeding completes
within the budget; a service always overloaded spends the 3 tries and
falls out of the loop with neither a result nor a rethrown error — the
function returns `undefined` rather than surfacing the model-service
error itself (see the counterexample); a service always failing with a
non-overload error has that error rethrown after 3 tries. -/
theorem C3_retry_amended :
    (∀ (env : Env) (msg : String) (history : List Message),
      (processPromptWithMCP env msg history).attemptsOf ≤ maxRetries)
    ∧ (∀ (R : Type) (a : Nat → Except ApiError R) (e1 e2 : ApiError) (r : R),
      a 1 = .error e1 → e1.status = some 529 → a 2 = .error e2 → e2.status = some 529 →
      a 3 = .ok r → runRetries a = .ok r [2000, 4000] 3)
    ∧ (∀ (R : Type) (a : Nat → Except ApiError R) (e : ApiError),
      (∀ k, a k = .error e) → e.status = some 529 →
      runRetries a = .exhausted [2000, 4000, 6000] 3)
    ∧ (∀ (R : Type) (a : Nat → Except ApiError R) (e : ApiError),
      (∀ k, a k = .error e) → ¬ e.status = some 529 →
      runRetries a = .thrown e [1000, 1000] 3) :=
  ⟨fun env msg history => by
    unfold processPromptWithMCP runRetries
    exact retryLoop_attempts_le _ (maxRetries + 1) 0 0 [] rfl (by decide),
   fun _ a e1 e2 r h1 hs1 h2 hs2 h3 => runRetries_overload_twice a e1 e2 r h1 hs1 h2 hs2 h3,
   fun _ a e h hs => runRetries_always_overloaded a e h hs,
   fun _ a e h hs => runRetries_always_failing a e h hs⟩

/-- A model-service behavior that reports overload on every try. -/
def a529 : Nat → Except ApiError Nat := fun _ => .error ⟨some 529, "Overloaded"⟩

/-- A model-service behavior overloaded on the first two tries and
succeeding on the third. -/
def aTwice : Nat → Except ApiError Nat := fun k =>
  if k < 3 then .error ⟨some 529, "Overloaded"⟩ else .ok 99

/-- C3 witness: after two overloads the third try's success is returned,
with the 2s and 4s backoffs and exactly 3 attempts; and a live run's
attempt count stays within the budget. -/
theorem C3_witness :
    runRetries aTwice = .ok 99 [2000, 4000] 3
    ∧ (processPromptWithMCP failEnv "hi" []).attemptsOf ≤ maxRetries :=
  ⟨C3_retry_amended.2.1 Nat aTwice ⟨some 529, "Overloaded"⟩ ⟨some 529, "Overloaded"⟩ 99
      rfl rfl rfl rfl rfl,
   C3_retry_amended.1 failEnv "hi" []⟩

/-- C3 counterexample: with a service that always reports overload, the
retry loop ends `exhausted` — no error is thrown and no result produced,
so no model-service error is surfaced by the engine; the claim that the
exhausted budget surfaces a fatal model-service error fails (the route's
generic 500 comes from reading a field of `undefined` instead). -/
theorem C3_counterexample :
    runRetries a529 = .exhausted [2000, 4000, 6000] 3
    ∧ (runRetries a529).isThrown = false
    ∧ (runRetries a529).succeeded = false :=
  ⟨by decide, by decide, by decide⟩

/-- On a successful run, the committed step count is the stored value
plus the run's `totalSteps`, which is the loop's iteration count. -/
theorem handlePromptCore_ok_totalSteps (m : SessionManager) (env : Env) (p : String)
    (session : Session) (s' : Session)
    (hok : (processPromptWithMCP env p session.messages).succeeded = true)
    (hl : lookupSession ((handlePromptCore m env p session).2).sessions session.id = some s') :
    s'.totalSteps = session.totalSteps +
      ((processPromptWithMCP env p session.messages).resultOf.map LoopResult.totalSteps).getD 0 := by
  rcases ho : processPromptWithMCP env p session.messages with ⟨r, d, a⟩ | ⟨e, d, a⟩ | ⟨d, a⟩
  · simp only [handlePromptCore, ho] at hl
    simp only [SessionManager.updateSession] at hl
    rcases hm2 : lookupSession (setSessionMessages m session.id r.messages).sessions
        session.id with _ | s0
    · rw [hm2] at hl
      simp [hm2] at hl
    · rw [hm2] at hl
      simp only at hl
      rw [lookupSession_setSession, if_pos rfl] at hl
      injection hl with hl
      subst hl
      simp [applyPatch, RetryOutcome.resultOf, ho]
  · rw [ho] at hok; cases hok
  · rw [ho] at hok; cases hok

/-- The session of the end-to-end navigate scenario. -/
def sessNav : Session := newSession "sess-1" 0

/-- The store just after that session's creation. -/
def smNav : SessionManager := (SessionManager.createSession ⟨[]⟩ 0 "sess-1").2

/-- The stored session after the navigate scenario's prompt call. -/
def sNav' : Session :=
  (lookupSession ((handlePromptCore smNav navEnv "navigate to example.com" sessNav).2).sessions
    "sess-1").getD (newSession "sess-1" 0)

/-- C4 (corrected).  A session's cumulative step count grows by each
completed call's `totalSteps`, which is the number of model-query loop
iterations of that call — not the number of tool invocations.  In
particular the end-to-end run in which the model requests exactly one
successful navigate tool call performs 2 iterations (the tool step plus
the completing reply) and stores `totalSteps = 2`, while folding exactly
1 tool invocation into the history: see the counterexample against the
claimed `totalSteps == 1`. -/
theorem C4_steps_amended :
    (∀ (m : SessionManager) (env : Env) (p : String) (session : Session) (s' : Session),
      (processPromptWithMCP env p session.messages).succeeded = true →
      lookupSession ((handlePromptCore m env p session).2).sessions session.id = some s' →
      s'.totalSteps = session.totalSteps +
        ((processPromptWithMCP env p session.messages).resultOf.map LoopResult.totalSteps).getD 0)
    ∧ (lookupSession ((handlePrompt ⟨[]⟩ navEnv "sess-1" navBody).2).sessions "sess-1").map
        Session.totalSteps = some 2 :=
  ⟨handlePromptCore_ok_totalSteps, by decide⟩

/-- C4 witness: the navigate scenario's stored step count equals the
session's prior count plus the run's iteration count. -/
theorem C4_witness :
    sNav'.totalSteps = sessNav.totalSteps +
      ((processPromptWithMCP navEnv "navigate to example.com" sessNav.messages).resultOf.map
        LoopResult.totalSteps).getD 0 :=
  C4_steps_amended.1 smNav navEnv "navigate to example.com" sessNav sNav' (by decide) (by decide)

/-- C4 counterexample: the run with exactly one successful navigate tool
call returns `totalSteps = 2` — one tool-executing iteration plus one
completing iteration — while the history holds exactly 1 tool
invocation, refuting both the step = tool-invocation invariant and the
claimed `totalSteps == 1`. -/
theorem C4_counterexample :
    replyTotalStepsOf (handlePrompt ⟨[]⟩ navEnv "sess-1" navBody).1 = some 2
    ∧ (lookupSession ((handlePrompt ⟨[]⟩ navEnv "sess-1" navBody).2).sessions "sess-1").map
        (fun s => countToolResults s.messages) = some 1 :=
  ⟨by decide, by decide⟩

/-- A core call that answers an error status leaves the store exactly as
it received it. -/
theorem handlePromptCore_err_store (m : SessionManager) (env : Env) (p : String)
    (session : Session)
    (hfail : ((handlePromptCore m env p session).1).isErr = true) :
    (handlePromptCore m env p session).2 = m := by
  rcases ho : processPromptWithMCP env p session.messages with ⟨r, d, a⟩ | ⟨e, d, a⟩ | ⟨d, a⟩ <;>
    simp [handlePromptCore, ho, ApiResponse.isErr] at hfail ⊢

/-- C6 (corrected).  A failed prompt-processing call commits no result
mutation: every session present after the call either was present before
with identical history, locator trail, step count, context, creation
time and id — only `lastActivity` may differ, refreshed by the session
lookup that precedes the failure — or is the freshly created empty
session of this very call (when it was not continuing one).  The
original claim that the store is left fully unchanged fails on both
counts: see the counterexample. -/
theorem C6_no_mutation_amended (m : SessionManager) (env : Env) (fid : String)
    (body : PromptBody)
    (hfail : ((handlePrompt m env fid body).1).isErr = true) :
    ∀ (sid : String) (s' : Session),
      lookupSession ((handlePrompt m env fid body).2).sessions sid = some s' →
      (∃ s, lookupSession m.sessions sid = some s
        ∧ s'.messages = s.messages ∧ s'.locatorHistory = s.locatorHistory
        ∧ s'.totalSteps = s.totalSteps ∧ s'.context = s.context
        ∧ s'.createdAt = s.createdAt ∧ s'.id = s.id)
      ∨ (sid = fid ∧ s' = newSession fid env.now) := by
  intro sid s' hl
  rcases hp : body.prompt with _ | p
  · simp only [handlePrompt, hp] at hl
    exact Or.inl ⟨s', hl, rfl, rfl, rfl, rfl, rfl, rfl⟩
  · by_cases ht : trimString p = ""
    · simp only [handlePrompt, hp, if_pos ht] at hl
      exact Or.inl ⟨s', hl, rfl, rfl, rfl, rfl, rfl, rfl⟩
    · rcases hsid : truthy body.sessionId with _ | sid0
      · simp only [handlePrompt, hp, if_neg ht, hsid, SessionManager.createSession] at hl hfail
        rw [handlePromptCore_err_store _ env p _ hfail] at hl
        simp only at hl
        rw [lookupSession_setSession] at hl
        by_cases he : fid = sid
        · rw [if_pos he] at hl
          injection hl with hl
          exact Or.inr ⟨he.symm, hl.symm⟩
        · rw [if_neg he] at hl
          exact Or.inl ⟨s', hl, rfl, rfl, rfl, rfl, rfl, rfl⟩
      · cases hcont : body.continueSession
        · simp only [handlePrompt, hp, if_neg ht, hsid, hcont,
            SessionManager.createSession] at hl hfail
          rw [handlePromptCore_err_store _ env p _ hfail] at hl
          simp only at hl
          rw [lookupSession_setSession] at hl
          by_cases he : fid = sid
          · rw [if_pos he] at hl
            injection hl with hl
            exact Or.inr ⟨he.symm, hl.symm⟩
          · rw [if_neg he] at hl
            exact Or.inl ⟨s', hl, rfl, rfl, rfl, rfl, rfl, rfl⟩
        · rcases hg : lookupSession m.sessions sid0 with _ | s
          · simp only [handlePrompt, hp, if_neg ht, hsid, hcont,
              SessionManager.getSession, hg] at hl
            exact Or.inl ⟨s', hl, rfl, rfl, rfl, rfl, rfl, rfl⟩
          · simp only [handlePrompt, hp, if_neg ht, hsid, hcont,
              SessionManager.getSession, hg] at hl hfail
            rw [handlePromptCore_err_store _ env p _ hfail] at hl
            simp only at hl
            rw [lookupSession_setSession] at hl
            by_cases he : sid0 = sid
            · rw [if_pos he] at hl
              injection hl with hl
              subst he
              refine Or.inl ⟨s, hg, ?_, ?_, ?_, ?_, ?_, ?_⟩ <;> rw [← hl]
            · rw [if_neg he] at hl
              exact Or.inl ⟨s', hl, rfl, rfl, rfl, rfl, rfl, rfl⟩

/-- The continued session's record after the failing call of the C6
scenario: identical to its old value except the refreshed
`lastActivity`. -/
def sW6 : Session := { newSession "s1" 0 with lastActivity := 100 }

/-- C6 witness: in the failing continued-session scenario, the surviving
session matches its old record on every result-bearing field. -/
theorem C6_witness :
    (∃ s, lookupSession m6.sessions "s1" = some s
      ∧ sW6.messages = s.messages ∧ sW6.locatorHistory = s.locatorHistory
      ∧ sW6.totalSteps = s.totalSteps ∧ sW6.context = s.context
      ∧ sW6.createdAt = s.createdAt ∧ sW6.id = s.id)
    ∨ ("s1" = "fresh" ∧ sW6 = newSession "fresh" 100) :=
  C6_no_mutation_amended m6 failEnv "fresh" body6 (by decide) "s1" sW6 (by decide)

/-- C6 counterexample: a prompt continuing session `s1` against a model
service that always fails ends in an error reply, yet the stored
session's `lastActivity` was changed from 0 to 100 by the lookup
preceding the failure — the claim that no session field is modified by a
failed call is false. -/
theorem C6_counterexample :
    ((handlePrompt m6 failEnv "fresh" body6).1).isErr = true
    ∧ (lookupSession ((handlePrompt m6 failEnv "fresh" body6).2).sessions "s1").map
        Session.lastActivity = some 100
    ∧ (lookupSession m6.sessions "s1").map Session.lastActivity = some 0 :=
  ⟨by decide, by decide, by decide⟩

/-- C8 (confirmed).  Each session creation schedules exactly one
deferred sweep, delayed by the timeout; at its actual fire time the
sweep deletes its session exactly when the session still exists and its
idle time exceeds the timeout, leaves every other session untouched, and
is a no-op when the session was touched recently enough. -/
theorem C8_expiry_sweep :
    (∀ sid : String, scheduleCleanupTimers sid = [(sid, sessionTimeout)])
    ∧ (∀ (m : SessionManager) (sid : String) (now : Nat),
      lookupSession ((SessionManager.cleanupFire m sid now).sessions) sid = none ↔
        (lookupSession m.sessions sid = none
         ∨ ∃ s, lookupSession m.sessions sid = some s ∧ now - s.lastActivity > sessionTimeout))
    ∧ (∀ (m : SessionManager) (sid sid' : String) (now : Nat), sid' ≠ sid →
      lookupSession ((SessionManager.cleanupFire m sid now).sessions) sid' =
        lookupSession m.sessions sid')
    ∧ (∀ (m : SessionManager) (sid : String) (now : Nat) (s : Session),
      lookupSession m.sessions sid = some s → now - s.lastActivity ≤ sessionTimeout →
      SessionManager.cleanupFire m sid now = m) := by
  refine ⟨fun _ => rfl, ?_, ?_, ?_⟩
  · intro m sid now
    unfold SessionManager.cleanupFire
    rcases hg : lookupSession m.sessions sid with _ | s
    · simp [hg]
    · dsimp only
      by_cases hc : now - s.lastActivity > sessionTimeout
      · rw [if_pos hc]
        constructor
        · intro _
          exact Or.inr ⟨s, rfl, hc⟩
        · intro _
          exact lookupSession_removeSession_self m.sessions sid
      · rw [if_neg hc, hg]
        simp [hc]
  · intro m sid sid' now hne
    unfold SessionManager.cleanupFire
    rcases hg : lookupSession m.sessions sid with _ | s
    · rfl
    · dsimp only
      by_cases hc : now - s.lastActivity > sessionTimeout
      · rw [if_pos hc]
        exact lookupSession_removeSession_other m.sessions sid sid' hne
      · rw [if_neg hc]
  · intro m sid now s hg hc
    unfold SessionManager.cleanupFire
    rw [hg]
    dsimp only
    rw [if_neg (by omega : ¬ now - s.lastActivity > sessionTimeout)]

/-- C8 witness: a session idle since time 0 is gone after its sweep
fires at `sessionTimeout + 1`, while a sweep firing when the idle time
is exactly the timeout leaves the store untouched. -/
theorem C8_witness :
    lookupSession ((SessionManager.cleanupFire m6 "s1" 1800001).sessions) "s1" = none
    ∧ SessionManager.cleanupFire m6 "s1" 1800000 = m6 :=
  ⟨(C8_expiry_sweep.2.1 m6 "s1" 1800001).mpr (Or.inr ⟨newSession "s1" 0, by decide⟩),
   C8_expiry_sweep.2.2.2 m6 "s1" 1800000 (newSession "s1" 0) (by decide) (by decide)⟩

/-- C9 (corrected).  The store's update operation applies its patch and
refreshes `lastActivity` — but it is not the only mutation path: the
read operation `getSession` also rewrites the stored record, refreshing
its `lastActivity` (and only that field), and a successful conversation
additionally writes `session.messages` directly on the live object.
Reads of missing ids and lookups of other sessions leave the store
untouched. -/
theorem C9_store_mutation_amended :
    (∀ (m : SessionManager) (now : Nat) (sid : String) (s : Session),
      lookupSession m.sessions sid = some s →
      SessionManager.getSession m now sid =
        (some { s with lastActivity := now },
         ⟨setSession m.sessions sid { s with lastActivity := now }⟩))
    ∧ (∀ (m : SessionManager) (now : Nat) (sid : String),
      lookupSession m.sessions sid = none → SessionManager.getSession m now sid = (none, m))
    ∧ (∀ (m : SessionManager) (now : Nat) (sid : String) (patch : SessionPatch) (s : Session),
      lookupSession m.sessions sid = some s →
      SessionManager.updateSession m now sid patch =
        (some { applyPatch s patch with lastActivity := now },
         ⟨setSession m.sessions sid { applyPatch s patch with lastActivity := now }⟩))
    ∧ (∀ (m : SessionManager) (now : Nat) (sid sid' : String), sid' ≠ sid →
      lookupSession ((SessionManager.getSession m now sid).2).sessions sid' =
        lookupSession m.sessions sid') := by
  refine ⟨?_, ?_, ?_, ?_⟩
  · intro m now sid s hg
    unfold SessionManager.getSession
    rw [hg]
  · intro m now sid hg
    unfold SessionManager.getSession
    rw [hg]
  · intro m now sid patch s hg
    unfold SessionManager.updateSession
    rw [hg]
  · intro m now sid sid' hne
    unfold SessionManager.getSession
    rcases hg : lookupSession m.sessions sid with _ | s
    · rfl
    · simp only
      rw [lookupSession_setSession, if_neg (fun h => hne h.symm)]

/-- C9 witness: reading `s1` at time 7 rewrites exactly its
`lastActivity` in the store and returns the refreshed record. -/
theorem C9_witness :
    SessionManager.getSession m6 7 "s1" =
      (some { newSession "s1" 0 with lastActivity := 7 },
       ⟨setSession m6.sessions "s1" { newSession "s1" 0 with lastActivity := 7 }⟩) :=
  C9_store_mutation_amended.1 m6 7 "s1" (newSession "s1" 0) (by decide)

/-- C9 counterexample: the read operation `getSession` mutates the
stored record — `lastActivity` goes from 0 to 42 on a pure read —
refuting the claim that all operations other than update leave every
session field unchanged. -/
theorem C9_counterexample :
    ((SessionManager.getSession m6 42 "s1").1).map Session.lastActivity = some 42
    ∧ (lookupSession ((SessionManager.getSession m6 42 "s1").2).sessions "s1").map
        Session.lastActivity = some 42
    ∧ (lookupSession m6.sessions "s1").map Session.lastActivity = some 0 :=
  ⟨by decide, by decide, by decide⟩

/-- C10 (confirmed).  A prompt request whose prompt is absent, empty or
only whitespace is rejected with 400 "Prompt is required" before any
session is resolved or created: the reply is the 400 error and the store
is returned exactly as it was. -/
theorem C10_empty_prompt (m : SessionManager) (env : Env) (fid : String) (body : PromptBody)
    (h : body.prompt = none ∨ ∃ p, body.prompt = some p ∧ trimString p = "") :
    handlePrompt m env fid body = (.err 400 "Prompt is required", m) := by
  rcases h with h | ⟨p, hp, ht⟩
  · simp [handlePrompt, h]
  · simp [handlePrompt, hp, ht]

/-- C10 witness: a whitespace-only prompt is rejected with 400 and the
empty store is untouched. -/
theorem C10_witness :
    handlePrompt ⟨[]⟩ failEnv "f1" ⟨some "   ", none, false⟩ =
      (.err 400 "Prompt is required", ⟨[]⟩) :=
  C10_empty_prompt ⟨[]⟩ failEnv "f1" ⟨some "   ", none, false⟩
    (Or.inr ⟨"   ", rfl, by decide⟩)
